import Mathlib

/-!
Verification of `lib/Crypto/Cipher/AES.py` (pycryptodome, legacy layout).

The module provides `_create_base_cipher` (key extraction/validation and
backend selection for the raw AES transform), the module-level loading of
the portable (`_raw_aes`) and accelerated (`_raw_aesni`) backend libraries,
and the public constants (`MODE_*`, `block_size`, `key_size`).

The embedding below models Python values appearing in the keyword dictionary
as `PyVal`, the dictionary itself as an association list with Python `pop`
semantics, the two loadable backend libraries as an environment `Env`, and
exception raising as an `Except`-style outcome.  Calls made to the
`start_operation` of a backend are additionally recorded in a trace so that
claims of the form "the backend is never invoked" are expressible.
-/

namespace AESSpec

/-- A Python value as it can appear in the keyword-parameter dictionary of
`_create_base_cipher`: booleans, byte strings (lists of byte values),
integers, text strings, or `None`. -/
inductive PyVal where
  | pyBool (b : Bool)
  | pyBytes (bs : List Nat)
  | pyInt (n : Int)
  | pyStr (s : String)
  | pyNone
deriving DecidableEq

/-- Python truthiness of a `PyVal` (used by `if use_aesni and _raw_aesni_lib:`). -/
def PyVal.truthy : PyVal → Bool
  | .pyBool b => b
  | .pyBytes bs => decide (bs ≠ [])
  | .pyInt n => decide (n ≠ 0)
  | .pyStr s => decide (s ≠ "")
  | .pyNone => false

/-- Modelled from the spec: `Crypto.Util.py3compat.byte_string` is imported by
`AES.py` but its module is not under `src/`.  Per the spec the key must be a
"byte sequence" (a byte string); the predicate tests exactly that. -/
def byte_string : PyVal → Bool
  | .pyBytes _ => true
  | _ => false

/-- The byte contents of a `PyVal` known to be a byte string. -/
def PyVal.bytesOf : PyVal → List Nat
  | .pyBytes bs => bs
  | _ => []

/-- The keyword-parameter dictionary (`dict_parameters`): an association list
from option names to Python values, with at most one binding per key in the
intended use (Python dicts have unique keys). -/
def Dict := List (String × PyVal)

instance : DecidableEq Dict := by
  unfold Dict
  infer_instance

/-- Dictionary lookup: the value bound to `key`, if any. -/
def lookup : Dict → String → Option PyVal
  | [], _ => none
  | (k, v) :: rest, key => if k = key then some v else lookup rest key

/-- Remove every binding of `key` (a Python dict holds at most one). -/
def eraseKey : Dict → String → Dict
  | [], _ => []
  | (k, v) :: rest, key =>
      if k = key then eraseKey rest key else (k, v) :: eraseKey rest key

/-- Python `dict.pop(key)`: the bound value together with the dictionary with
the binding removed, or `none` when the key is absent (Python: `KeyError`). -/
def pop (d : Dict) (key : String) : Option (PyVal × Dict) :=
  (lookup d key).map (fun v => (v, eraseKey d key))

/-- Python `dict.pop(key, default)`: like `pop` but yielding `default` and
the unchanged dictionary when the key is absent. -/
def popOr (d : Dict) (key : String) (default : PyVal) : PyVal × Dict :=
  match lookup d key with
  | some v => (v, eraseKey d key)
  | none => (default, d)

/-- A loaded backend library (`CDLL` object): an identity plus its
`start_operation` entry point, which takes the key and the key length and
returns the C status code together with the handle written through the
`byref(cipher)` out-parameter. -/
structure Lib where
  libId : Nat
  start_operation : List Nat → Nat → Nat × Nat

/-- Which backend library a `start_operation`/`stop_operation` pair belongs to. -/
inductive BackendTag where
  | aesni
  | portable
deriving DecidableEq

/-- The module-level state of `AES.py` after import: `_raw_aes_lib` is always
loaded, `_raw_aesni_lib` is `None` or a loaded library. -/
structure Env where
  raw_aes_lib : Lib
  raw_aesni_lib : Option Lib

/-- A raised Python exception, by class and message. -/
inductive PyErr where
  | typeError (msg : String)
  | valueError (msg : String)
deriving DecidableEq

/-- The exception class alone (for claims about error-class distinctions). -/
inductive PyErrClass where
  | typeErrorClass
  | valueErrorClass
deriving DecidableEq

/-- The class of a raised exception. -/
def PyErr.errClass : PyErr → PyErrClass
  | .typeError _ => .typeErrorClass
  | .valueError _ => .valueErrorClass

/-- Message of the `TypeError` raised when the key parameter is absent
(source line 104; the quotes around the word key are part of the message). -/
def missingKeyMsg : String := "Missing \x27key\x27 parameter"

/-- `TypeError("The cipher key must be a byte string")`. -/
def byteStringMsg : String := "The cipher key must be a byte string"

/-- `ValueError("Incorrect AES key length (%d bytes)" % len(key))`. -/
def keyLenMsg (n : Nat) : String :=
  "Incorrect AES key length (" ++ toString n ++ " bytes)"

/-- The uppercase hexadecimal digit character for `d < 16` (as `"%X"`). -/
def hexDigitChar (d : Nat) : Char :=
  if d < 10 then Char.ofNat (48 + d) else Char.ofNat (55 + d)

/-- The base-16 digits of `n`, most significant first (no leading zeros,
`0 ↦ [0]`), as produced by the Python `"%X"` formatting. -/
def hexDigits (n : Nat) : List Nat :=
  if n < 16 then [n] else hexDigits (n / 16) ++ [n % 16]
decreasing_by exact Nat.div_lt_self (by omega) (by omega)

/-- Python `"%X" % n`: `n` in uppercase hexadecimal. -/
def toHexUpper (n : Nat) : String :=
  ⟨(hexDigits n).map hexDigitChar⟩

/-- `ValueError("Error %X while instantiating the AES cipher" % result)`. -/
def backendErrMsg (result : Nat) : String :=
  "Error " ++ toHexUpper result ++ " while instantiating the AES cipher"

/-! The public constants of the module (source lines 194-219). -/

/-- Electronic Code Book. -/
def MODE_ECB : Nat := 1
/-- Cipher-Block Chaining. -/
def MODE_CBC : Nat := 2
/-- Cipher FeedBack. -/
def MODE_CFB : Nat := 3
/-- PGP mode (deprecated). -/
def MODE_PGP : Nat := 4
/-- Output FeedBack. -/
def MODE_OFB : Nat := 5
/-- CounTer mode. -/
def MODE_CTR : Nat := 6
/-- OpenPGP mode. -/
def MODE_OPENPGP : Nat := 7
/-- Counter with CBC-MAC. -/
def MODE_CCM : Nat := 8
/-- EAX mode. -/
def MODE_EAX : Nat := 9
/-- Synthetic Initialization Vector mode. -/
def MODE_SIV : Nat := 10
/-- Galois Counter Mode. -/
def MODE_GCM : Nat := 11
/-- Size of a data block (in bytes). -/
def block_size : Nat := 16
/-- Size of a key (in bytes): the tuple `(16, 24, 32)`. -/
def key_size : List Nat := [16, 24, 32]

/-- Source lines 112-117: the `start_operation`/`stop_operation` pair is taken
from `_raw_aesni_lib` when `use_aesni and _raw_aesni_lib` is truthy, and from
`_raw_aes_lib` otherwise. -/
def selectLib (env : Env) (use_aesni : PyVal) : Lib × BackendTag :=
  match use_aesni.truthy, env.raw_aesni_lib with
  | true, some lib => (lib, .aesni)
  | _, _ => (env.raw_aes_lib, .portable)

/-- The observable result of `_create_base_cipher`: the outcome (a raised
exception, or the handle paired with the backend whose `stop_operation` is
returned alongside it), the keyword dictionary after the `pop` mutations, and
the trace of `start_operation` invocations (backend, key). -/
structure CreateResult where
  outcome : Except PyErr (Nat × BackendTag)
  dict : Dict
  startCalls : List (BackendTag × List Nat)

/-- Source lines 95-124, `_create_base_cipher(dict_parameters)`:
pop `use_aesni` (default `True`), pop `key` (absent: `TypeError`), reject a
non-byte-string key (`TypeError`), reject a key whose length is not in
`key_size` (`ValueError`), select the backend pair, call `start_operation`,
raise `ValueError` on a nonzero status, and otherwise return the handle and
the selected `stop_operation`. -/
def _create_base_cipher (env : Env) (dict_parameters : Dict) : CreateResult :=
  let p := popOr dict_parameters "use_aesni" (.pyBool true)
  let use_aesni := p.1
  let d1 := p.2
  match pop d1 "key" with
  | none => ⟨.error (.typeError missingKeyMsg), d1, []⟩
  | some (keyVal, d2) =>
    if byte_string keyVal = false then
      ⟨.error (.typeError byteStringMsg), d2, []⟩
    else
      let key := keyVal.bytesOf
      if key.length ∉ key_size then
        ⟨.error (.valueError (keyLenMsg key.length)), d2, []⟩
      else
        let sel := selectLib env use_aesni
        let res := sel.1.start_operation key key.length
        if res.1 ≠ 0 then
          ⟨.error (.valueError (backendErrMsg res.1)), d2, [(sel.2, key)]⟩
        else
          ⟨.ok (res.2, sel.2), d2, [(sel.2, key)]⟩

/-- An `OSError` raised while probing for or loading the accelerated library. -/
structure OSError where
  msg : String
deriving DecidableEq

/-- The body of the `try:` block at source lines 88-90: call
`cpuid.have_aes_ni()` (which may raise), and when it reports support, load
`_raw_aesni` with `CDLL` (which may raise `OSError`). -/
def initAesniBody (probe : Except OSError Bool) (load : Except OSError Lib) :
    Except OSError (Option Lib) := do
  let supported ← probe
  if supported then
    let lib ← load
    pure (some lib)
  else
    pure none

/-- Source lines 87-92: `_raw_aesni_lib = None`, then the `try`/`except
OSError: pass` around the probe and the load, leaving the module attribute
`None` whenever the body raises. -/
def init_raw_aesni_lib (probe : Except OSError Bool) (load : Except OSError Lib) :
    Except OSError (Option Lib) :=
  match initAesniBody probe load with
  | .ok v => .ok v
  | .error _ => .ok none

/-- The numeric value of an uppercase hexadecimal digit character. -/
def hexCharVal (c : Char) : Nat :=
  if 65 ≤ c.toNat then c.toNat - 55 else c.toNat - 48

/-- Recombine base-16 digits (most significant first) into a number. -/
def fromHexDigits (l : List Nat) : Nat :=
  l.foldl (fun a d => a * 16 + d) 0

/-! ### Concrete instances used by witnesses -/

/-- A portable backend library whose `start_operation` always succeeds with
status `0` and handle `7`. -/
def libOk : Lib := ⟨0, fun _ _ => (0, 7)⟩

/-- An accelerated backend library whose `start_operation` always succeeds
with status `0` and handle `9`. -/
def libOkNI : Lib := ⟨1, fun _ _ => (0, 9)⟩

/-- A portable backend library whose `start_operation` always fails with
status `5`. -/
def libFail : Lib := ⟨2, fun _ _ => (5, 0)⟩

/-- Environment with no accelerated library loaded. -/
def env0 : Env := ⟨libOk, none⟩

/-- Environment with the accelerated library loaded. -/
def env1 : Env := ⟨libOk, some libOkNI⟩

/-- Environment whose portable backend fails. -/
def envFail : Env := ⟨libFail, none⟩

/-- A 15-byte key (invalid length). -/
def key15 : List Nat := List.replicate 15 0

/-- A 16-byte key (valid length). -/
def key16 : List Nat := List.replicate 16 0

/-! ### SIV mode (spec-modelled: the mode-dispatch layer is not under `src/`) -/

/-- Modelled from the spec: the SIV key-length set.  The mode-dispatch layer
(`Crypto.Cipher._create_cipher` and the SIV mode implementation) is not under
`src/`; the spec states that the synthetic-IV variant uses the key-length set
{32, 48, 64} "instead of {16,24,32}", and the module docstring (source line
135) says a SIV key must be 32, 48, or 64 bytes long. -/
def siv_key_size : List Nat := [32, 48, 64]

/-- Modelled from the spec: SIV-mode key validation accepts exactly the
lengths in `siv_key_size`. -/
def sivKeyAccepted (key : List Nat) : Bool :=
  decide (key.length ∈ siv_key_size)

/-- Modelled from the spec: the synthetic-IV construction derives two
subkeys, the two halves of the SIV key, each of which is handed to the
base-cipher layer. -/
def sivSubkeys (key : List Nat) : List Nat × List Nat :=
  (key.take (key.length / 2), key.drop (key.length / 2))

/-! ### Lemmas about the dictionary operations -/

theorem lookup_eraseKey_ne (d : Dict) (k k0 : String) (h : k ≠ k0) :
    lookup (eraseKey d k0) k = lookup d k := by
  induction d with
  | nil => rfl
  | cons p rest ih =>
    obtain ⟨pk, pv⟩ := p
    by_cases hp : pk = k0
    · subst hp
      have hpk : ¬ pk = k := fun hc => h hc.symm
      simp [eraseKey, lookup, hpk, ih]
    · by_cases hq : pk = k
      · subst hq
        simp [eraseKey, lookup, hp]
      · simp [eraseKey, lookup, hp, hq, ih]

theorem lookup_eraseKey_self (d : Dict) (k : String) :
    lookup (eraseKey d k) k = none := by
  induction d with
  | nil => rfl
  | cons p rest ih =>
    obtain ⟨pk, pv⟩ := p
    by_cases hp : pk = k <;> simp [eraseKey, lookup, hp, ih]

theorem eraseKey_of_lookup_none (d : Dict) (k : String) (h : lookup d k = none) :
    eraseKey d k = d := by
  induction d with
  | nil => rfl
  | cons p rest ih =>
    obtain ⟨pk, pv⟩ := p
    by_cases hp : pk = k
    · simp [lookup, hp] at h
    · simp [lookup, hp] at h
      simp [eraseKey, hp, ih h]

/-! ### Lemmas about the hexadecimal rendering of the backend status code -/

theorem foldl_hex_append (l : List Nat) (d a : Nat) :
    (l ++ [d]).foldl (fun a d => a * 16 + d) a
      = (l.foldl (fun a d => a * 16 + d) a) * 16 + d := by
  simp [List.foldl_append]

theorem fromHexDigits_hexDigits (n : Nat) : fromHexDigits (hexDigits n) = n := by
  induction n using Nat.strong_induction_on with
  | _ n ih =>
    rw [hexDigits]
    by_cases h : n < 16
    · simp [h, fromHexDigits]
    · have hlt : n / 16 < n := Nat.div_lt_self (by omega) (by omega)
      simp only [h, if_false]
      unfold fromHexDigits
      rw [foldl_hex_append]
      have := ih (n / 16) hlt
      unfold fromHexDigits at this
      rw [this]
      omega

theorem hexDigits_lt (n : Nat) : ∀ d ∈ hexDigits n, d < 16 := by
  induction n using Nat.strong_induction_on with
  | _ n ih =>
    rw [hexDigits]
    by_cases h : n < 16
    · simp [h]
    · have hlt : n / 16 < n := Nat.div_lt_self (by omega) (by omega)
      simp only [h, if_false]
      intro d hd
      rcases List.mem_append.mp hd with hd1 | hd2
      · exact ih (n / 16) hlt d hd1
      · simp at hd2
        omega

theorem hexCharVal_hexDigitChar (d : Nat) (h : d < 16) :
    hexCharVal (hexDigitChar d) = d := by
  interval_cases d <;> decide

theorem toHexUpper_injective : Function.Injective toHexUpper := by
  intro a b hab
  unfold toHexUpper at hab
  have hdata : (hexDigits a).map hexDigitChar = (hexDigits b).map hexDigitChar := by
    have := congrArg String.data hab
    simpa using this
  have hdig : (hexDigits a).map (fun d => hexCharVal (hexDigitChar d))
      = (hexDigits b).map (fun d => hexCharVal (hexDigitChar d)) := by
    have := congrArg (List.map hexCharVal) hdata
    simpa [List.map_map, Function.comp] using this
  have hmapid : ∀ n : Nat, (hexDigits n).map (fun d => hexCharVal (hexDigitChar d))
      = hexDigits n := by
    intro n
    have : ∀ d ∈ hexDigits n, hexCharVal (hexDigitChar d) = d :=
      fun d hd => hexCharVal_hexDigitChar d (hexDigits_lt n d hd)
    calc (hexDigits n).map (fun d => hexCharVal (hexDigitChar d))
        = (hexDigits n).map id := List.map_congr_left (fun d hd => this d hd)
      _ = hexDigits n := List.map_id _
  have : hexDigits a = hexDigits b := by rw [← hmapid a, ← hmapid b, hdig]
  calc a = fromHexDigits (hexDigits a) := (fromHexDigits_hexDigits a).symm
    _ = fromHexDigits (hexDigits b) := by rw [this]
    _ = b := fromHexDigits_hexDigits b

theorem backendErrMsg_injective : Function.Injective backendErrMsg := by
  intro a b hab
  unfold backendErrMsg at hab
  have hdata := congrArg String.data hab
  simp only [String.data_append] at hdata
  have h1 : "Error ".data ++ (toHexUpper a).data
      = "Error ".data ++ (toHexUpper b).data :=
    List.append_cancel_right hdata
  have h2 : (toHexUpper a).data = (toHexUpper b).data :=
    List.append_cancel_left h1
  exact toHexUpper_injective (String.ext h2)

/-! ### Evaluation lemmas for `_create_base_cipher` -/

theorem lookup_popOr_snd (d : Dict) (k0 k : String) (dflt : PyVal) (hk : k ≠ k0) :
    lookup (popOr d k0 dflt).2 k = lookup d k := by
  unfold popOr
  cases hua : lookup d k0 with
  | some v => simp [lookup_eraseKey_ne d k k0 hk]
  | none => simp

/-- How `_create_base_cipher` evaluates once the dictionary is known to bind
`"key"` to a byte string. -/
theorem create_eval_bytes (env : Env) (d : Dict) (key : List Nat)
    (hk : lookup d "key" = some (.pyBytes key)) :
    _create_base_cipher env d =
      (let ua := (popOr d "use_aesni" (.pyBool true)).1
      let d2 := eraseKey (popOr d "use_aesni" (.pyBool true)).2 "key"
      if key.length ∉ key_size then
        ⟨.error (.valueError (keyLenMsg key.length)), d2, []⟩
      else
        let sel := selectLib env ua
        let res := sel.1.start_operation key key.length
        if res.1 ≠ 0 then
          ⟨.error (.valueError (backendErrMsg res.1)), d2, [(sel.2, key)]⟩
        else
          ⟨.ok (res.2, sel.2), d2, [(sel.2, key)]⟩) := by
  unfold _create_base_cipher
  have hl : lookup (popOr d "use_aesni" (.pyBool true)).2 "key"
      = some (.pyBytes key) := by
    rw [lookup_popOr_snd d "use_aesni" "key" _ (by decide)]
    exact hk
  simp [pop, hl, byte_string, PyVal.bytesOf]

/-- How `_create_base_cipher` evaluates on a byte-string key of valid length:
exactly one `start_operation` call on the selected backend, outcome decided by
the returned status. -/
theorem create_eval_valid (env : Env) (d : Dict) (key : List Nat)
    (hk : lookup d "key" = some (.pyBytes key))
    (hlen : key.length ∈ key_size) :
    (_create_base_cipher env d).startCalls
        = [((selectLib env (popOr d "use_aesni" (.pyBool true)).1).2, key)] ∧
    (_create_base_cipher env d).outcome
        = (if ((selectLib env (popOr d "use_aesni" (.pyBool true)).1).1.start_operation
                key key.length).1 ≠ 0 then
            .error (.valueError (backendErrMsg
              ((selectLib env (popOr d "use_aesni" (.pyBool true)).1).1.start_operation
                key key.length).1))
          else
            .ok (((selectLib env (popOr d "use_aesni" (.pyBool true)).1).1.start_operation
                key key.length).2,
              (selectLib env (popOr d "use_aesni" (.pyBool true)).1).2)) ∧
    (_create_base_cipher env d).dict
        = eraseKey (popOr d "use_aesni" (.pyBool true)).2 "key" := by
  rw [create_eval_bytes env d key hk]
  have hnn : ¬ key.length ∉ key_size := not_not_intro hlen
  by_cases hr : ((selectLib env (popOr d "use_aesni" (.pyBool true)).1).1.start_operation
      key key.length).1 ≠ 0 <;>
    simp [hnn, hr]

/-- The accelerated pair is selected exactly when the override is truthy and
the accelerated library is loaded. -/
theorem selectLib_aesni_iff (env : Env) (ua : PyVal) :
    (selectLib env ua).2 = .aesni
      ↔ (ua.truthy = true ∧ env.raw_aesni_lib.isSome = true) := by
  unfold selectLib
  cases hu : ua.truthy <;> cases ho : env.raw_aesni_lib <;> simp

/-- The second component of `popOr` is always the dictionary with the key
erased (erasure is the identity when the key is absent). -/
theorem popOr_snd_eq (d : Dict) (k : String) (dflt : PyVal) :
    (popOr d k dflt).2 = eraseKey d k := by
  unfold popOr
  cases h : lookup d k with
  | some v => simp
  | none => simp [eraseKey_of_lookup_none d k h]

/-- When the override key is absent, `popOr` yields the default `True`. -/
theorem popOr_fst_default (d : Dict) (k : String) (dflt : PyVal)
    (h : lookup d k = none) :
    (popOr d k dflt).1 = dflt := by
  unfold popOr
  rw [h]

/-- Every recorded `start_operation` call carries the tag of the selected
backend pair. -/
theorem startCalls_tag (env : Env) (d : Dict) (c : BackendTag × List Nat)
    (hc : c ∈ (_create_base_cipher env d).startCalls) :
    c.1 = (selectLib env (popOr d "use_aesni" (.pyBool true)).1).2 := by
  simp only [_create_base_cipher] at hc
  split at hc
  · simp at hc
  · split at hc
    · simp at hc
    · split at hc
      · simp at hc
      · split at hc <;>
        · simp at hc
          rw [hc]

/-! ### Claim theorems -/

/-- C8: the public constants are stable and equal to their documented values:
`block_size = 16`, `key_size = (16, 24, 32)`, and the eleven mode identifiers
`MODE_ECB = 1` through `MODE_GCM = 11` are pairwise distinct. -/
theorem public_constants_stable :
    block_size = 16 ∧ key_size = [16, 24, 32] ∧
    MODE_ECB = 1 ∧ MODE_CBC = 2 ∧ MODE_CFB = 3 ∧ MODE_PGP = 4 ∧ MODE_OFB = 5 ∧
    MODE_CTR = 6 ∧ MODE_OPENPGP = 7 ∧ MODE_CCM = 8 ∧ MODE_EAX = 9 ∧
    MODE_SIV = 10 ∧ MODE_GCM = 11 ∧
    ([ MODE_ECB, MODE_CBC, MODE_CFB, MODE_PGP, MODE_OFB, MODE_CTR, MODE_OPENPGP,
      MODE_CCM, MODE_EAX, MODE_SIV, MODE_GCM] : List Nat).Nodup := by
  decide

/-- C1: a byte-string key whose length is outside `key_size` makes
`_create_base_cipher` fail with the `ValueError` (RangeError-class) key-length
error, and no backend `start_operation` is ever invoked for such a key. -/
theorem invalid_key_length_no_start (env : Env) (d : Dict) (key : List Nat)
    (hk : lookup d "key" = some (.pyBytes key))
    (hlen : key.length ∉ key_size) :
    (_create_base_cipher env d).outcome
        = .error (.valueError (keyLenMsg key.length)) ∧
    (_create_base_cipher env d).startCalls = [] := by
  rw [create_eval_bytes env d key hk]
  simp [hlen]

/-- Witness for C1: a 15-byte key is rejected with the key-length `ValueError`
and the start trace is empty. -/
theorem invalid_key_length_no_start_witness :
    lookup [("key", PyVal.pyBytes key15)] "key" = some (.pyBytes key15) ∧
    key15.length ∉ key_size ∧
    (_create_base_cipher env0 [("key", .pyBytes key15)]).outcome
        = .error (.valueError (keyLenMsg key15.length)) ∧
    (_create_base_cipher env0 [("key", .pyBytes key15)]).startCalls = [] :=
  ⟨rfl, by decide,
    invalid_key_length_no_start env0 [("key", .pyBytes key15)] key15 rfl (by decide)⟩

/-- C2: on a valid construction request the accelerated (`aesni`) start/stop
pair is selected if and only if the popped `use_aesni` override (defaulting
to `True` when absent) is truthy and the accelerated library was loaded;
otherwise the portable pair is selected.  The successful outcome carries the
stop operation of the very backend that was started. -/
theorem aesni_selected_iff (env : Env) (d : Dict) (key : List Nat)
    (hk : lookup d "key" = some (.pyBytes key))
    (hlen : key.length ∈ key_size) :
    ∃ t : BackendTag,
      (_create_base_cipher env d).startCalls = [(t, key)] ∧
      (∀ hdl t', (_create_base_cipher env d).outcome = .ok (hdl, t') → t' = t) ∧
      (t = .aesni ↔
        ((popOr d "use_aesni" (.pyBool true)).1.truthy = true
          ∧ env.raw_aesni_lib.isSome = true)) ∧
      (t ≠ .aesni → t = .portable) ∧
      (lookup d "use_aesni" = none →
        (popOr d "use_aesni" (.pyBool true)).1 = .pyBool true) := by
  obtain ⟨hsc, hout, _⟩ := create_eval_valid env d key hk hlen
  refine ⟨(selectLib env (popOr d "use_aesni" (.pyBool true)).1).2, hsc, ?_,
    selectLib_aesni_iff env _, ?_, popOr_fst_default d _ _⟩
  · intro hdl t' hok
    rw [hout] at hok
    by_cases hr : ((selectLib env (popOr d "use_aesni" (.pyBool true)).1).1.start_operation
        key key.length).1 ≠ 0
    · rw [if_pos hr] at hok
      cases hok
    · rw [if_neg hr] at hok
      injection hok with hpair
      exact (congrArg Prod.snd hpair).symm
  · intro hne
    cases htag : (selectLib env (popOr d "use_aesni" (.pyBool true)).1).2
    · exact absurd htag hne
    · rfl

/-- Witness for C2: with the accelerated library loaded and `use_aesni`
absent, the accelerated pair is selected. -/
theorem aesni_selected_iff_witness :
    ∃ t : BackendTag,
      (_create_base_cipher env1 [("key", .pyBytes key16)]).startCalls = [(t, key16)] ∧
      (∀ hdl t', (_create_base_cipher env1 [("key", .pyBytes key16)]).outcome
          = .ok (hdl, t') → t' = t) ∧
      (t = .aesni ↔
        ((popOr [("key", .pyBytes key16)] "use_aesni" (.pyBool true)).1.truthy = true
          ∧ env1.raw_aesni_lib.isSome = true)) ∧
      (t ≠ .aesni → t = .portable) ∧
      (lookup [("key", .pyBytes key16)] "use_aesni" = none →
        (popOr [("key", .pyBytes key16)] "use_aesni" (.pyBool true)).1 = .pyBool true) :=
  aesni_selected_iff env1 [("key", .pyBytes key16)] key16 rfl (by decide)

/-- C5: a nonzero `start_operation` status makes `_create_base_cipher` raise
the `ValueError` whose message carries the status code (recoverably: the
message map is injective), and no cipher handle is ever returned. -/
theorem nonzero_status_backend_error (env : Env) (d : Dict) (key : List Nat)
    (hk : lookup d "key" = some (.pyBytes key))
    (hlen : key.length ∈ key_size)
    (hstat : ((selectLib env (popOr d "use_aesni" (.pyBool true)).1).1.start_operation
        key key.length).1 ≠ 0) :
    (_create_base_cipher env d).outcome
        = .error (.valueError (backendErrMsg
            ((selectLib env (popOr d "use_aesni" (.pyBool true)).1).1.start_operation
              key key.length).1)) ∧
    (∀ hdl t, (_create_base_cipher env d).outcome ≠ .ok (hdl, t)) ∧
    Function.Injective backendErrMsg := by
  obtain ⟨_, hout, _⟩ := create_eval_valid env d key hk hlen
  rw [hout, if_pos hstat]
  refine ⟨rfl, ?_, backendErrMsg_injective⟩
  intro hdl t hc
  cases hc

/-- Witness for C5: a backend returning status `5` yields the corresponding
`ValueError` and no handle. -/
theorem nonzero_status_backend_error_witness :
    (_create_base_cipher envFail [("key", .pyBytes key16)]).outcome
        = .error (.valueError (backendErrMsg
            ((selectLib envFail (popOr [("key", .pyBytes key16)] "use_aesni"
                (.pyBool true)).1).1.start_operation key16 key16.length).1)) ∧
    (∀ hdl t, (_create_base_cipher envFail [("key", .pyBytes key16)]).outcome
        ≠ .ok (hdl, t)) ∧
    Function.Injective backendErrMsg :=
  nonzero_status_backend_error envFail [("key", .pyBytes key16)] key16 rfl
    (by decide) (by decide)

/-- A successful `_create_base_cipher` implies the dictionary bound `"key"`
to a byte string of valid length. -/
theorem create_ok_inv (env : Env) (d : Dict) (hdl : Nat) (t : BackendTag)
    (hok : (_create_base_cipher env d).outcome = .ok (hdl, t)) :
    ∃ key, lookup d "key" = some (.pyBytes key) ∧ key.length ∈ key_size := by
  have hkl := lookup_popOr_snd d "use_aesni" "key" (.pyBool true) (by decide)
  simp only [_create_base_cipher] at hok
  cases hl : lookup (popOr d "use_aesni" (.pyBool true)).2 "key" with
  | none =>
    rw [show pop (popOr d "use_aesni" (.pyBool true)).2 "key" = none from
      by simp [pop, hl]] at hok
    cases hok
  | some v =>
    rw [show pop (popOr d "use_aesni" (.pyBool true)).2 "key"
        = some (v, eraseKey (popOr d "use_aesni" (.pyBool true)).2 "key") from
      by simp [pop, hl]] at hok
    cases v with
    | pyBytes key =>
      refine ⟨key, by rw [← hkl]; exact hl, ?_⟩
      by_cases hlen : key.length ∈ key_size
      · exact hlen
      · exfalso
        simp [byte_string, PyVal.bytesOf, hlen] at hok
    | pyBool b => simp [byte_string] at hok
    | pyInt n => simp [byte_string] at hok
    | pyStr s => simp [byte_string] at hok
    | pyNone => simp [byte_string] at hok

/-- C10: whenever `_create_base_cipher` succeeds, the single recorded
`start_operation` call was made on exactly the backend whose `stop_operation`
is returned alongside the handle. -/
theorem stop_pairs_with_start (env : Env) (d : Dict) (hdl : Nat) (t : BackendTag)
    (hok : (_create_base_cipher env d).outcome = .ok (hdl, t)) :
    ∃ key, (_create_base_cipher env d).startCalls = [(t, key)] := by
  obtain ⟨key, hk, hlen⟩ := create_ok_inv env d hdl t hok
  obtain ⟨hsc, hout, _⟩ := create_eval_valid env d key hk hlen
  rw [hout] at hok
  by_cases hr : ((selectLib env (popOr d "use_aesni" (.pyBool true)).1).1.start_operation
      key key.length).1 ≠ 0
  · rw [if_pos hr] at hok
    cases hok
  · rw [if_neg hr] at hok
    injection hok with hpair
    refine ⟨key, ?_⟩
    rw [hsc, congrArg Prod.snd hpair]

/-- Witness for C10: a successful portable construction pairs the handle with
the portable stop operation. -/
theorem stop_pairs_with_start_witness :
    ∃ key, (_create_base_cipher env0 [("key", .pyBytes key16)]).startCalls
        = [(BackendTag.portable, key)] :=
  stop_pairs_with_start env0 [("key", .pyBytes key16)] 7 .portable (by rfl)

/-- On every path, `_create_base_cipher` leaves the dictionary equal to the
input with exactly the `"use_aesni"` and `"key"` bindings removed. -/
theorem create_dict_eq (env : Env) (d : Dict) :
    (_create_base_cipher env d).dict = eraseKey (eraseKey d "use_aesni") "key" := by
  simp only [_create_base_cipher]
  rw [popOr_snd_eq]
  split
  · next heq =>
    have hl : lookup (eraseKey d "use_aesni") "key" = none := by
      simpa [pop] using heq
    exact (eraseKey_of_lookup_none _ _ hl).symm
  · next keyVal d2 heq =>
    have hd2 : d2 = eraseKey (eraseKey d "use_aesni") "key" := by
      unfold pop at heq
      cases hL : lookup (eraseKey d "use_aesni") "key" with
      | none =>
        rw [hL] at heq
        cases heq
      | some v =>
        rw [hL] at heq
        simp at heq
        exact heq.2.symm
    split
    · exact hd2
    · split
      · exact hd2
      · split <;> exact hd2

/-- C7: `_create_base_cipher` consumes exactly the `use_aesni` and `key`
options: both are removed from the dictionary, and every other binding is
left untouched. -/
theorem options_frame (env : Env) (d : Dict) :
    (_create_base_cipher env d).dict = eraseKey (eraseKey d "use_aesni") "key" ∧
    lookup ((_create_base_cipher env d).dict) "use_aesni" = none ∧
    lookup ((_create_base_cipher env d).dict) "key" = none ∧
    (∀ k, k ≠ "use_aesni" → k ≠ "key" →
      lookup ((_create_base_cipher env d).dict) k = lookup d k) := by
  refine ⟨create_dict_eq env d, ?_, ?_, ?_⟩
  · rw [create_dict_eq env d,
      lookup_eraseKey_ne (eraseKey d "use_aesni") "use_aesni" "key" (by decide)]
    exact lookup_eraseKey_self d "use_aesni"
  · rw [create_dict_eq env d]
    exact lookup_eraseKey_self _ "key"
  · intro k hk1 hk2
    rw [create_dict_eq env d, lookup_eraseKey_ne _ k "key" hk2,
      lookup_eraseKey_ne _ k "use_aesni" hk1]

/-- Witness for C7: with an extra `"nonce"` binding present, `use_aesni` and
`key` are removed and `"nonce"` is preserved. -/
theorem options_frame_witness :
    (_create_base_cipher env0
        [("use_aesni", .pyBool false), ("nonce", .pyBytes [1, 2]),
          ("key", .pyBytes key16)]).dict
      = eraseKey (eraseKey [("use_aesni", .pyBool false), ("nonce", .pyBytes [1, 2]),
          ("key", .pyBytes key16)] "use_aesni") "key" ∧
    lookup ((_create_base_cipher env0
        [("use_aesni", .pyBool false), ("nonce", .pyBytes [1, 2]),
          ("key", .pyBytes key16)]).dict) "nonce"
      = lookup [("use_aesni", .pyBool false), ("nonce", .pyBytes [1, 2]),
          ("key", .pyBytes key16)] "nonce" :=
  ⟨(options_frame env0 _).1, (options_frame env0 _).2.2.2 "nonce" (by decide) (by decide)⟩

/-- C3 counterexample: with the key parameter absent entirely, the code
raises the missing-key `TypeError` — the very same error class as the
`TypeError` raised for a key of the wrong type, not a distinct
configuration-error class. -/
theorem missing_key_same_class_as_wrong_type :
    (_create_base_cipher env0 []).outcome = .error (.typeError missingKeyMsg) ∧
    (_create_base_cipher env0 [("key", .pyInt 5)]).outcome
        = .error (.typeError byteStringMsg) ∧
    PyErr.errClass (.typeError missingKeyMsg)
        = PyErr.errClass (.typeError byteStringMsg) :=
  ⟨rfl, rfl, rfl⟩

/-- C3 amended: when the key parameter is absent entirely, construction fails
with the missing-key `TypeError` — the same error class as for a
key of the wrong type, and a class distinct from the `ValueError`
(RangeError-class) raised for a key of the wrong length. -/
theorem missing_key_raises_type_error (env : Env) (d : Dict)
    (h : lookup d "key" = none) :
    (_create_base_cipher env d).outcome = .error (.typeError missingKeyMsg) ∧
    PyErr.errClass (.typeError missingKeyMsg)
        = PyErr.errClass (.typeError byteStringMsg) ∧
    (∀ n, PyErr.errClass (.typeError missingKeyMsg)
        ≠ PyErr.errClass (.valueError (keyLenMsg n))) := by
  have hl : lookup (popOr d "use_aesni" (.pyBool true)).2 "key" = none := by
    rw [lookup_popOr_snd d "use_aesni" "key" _ (by decide)]
    exact h
  refine ⟨?_, rfl, fun n hc => by cases hc⟩
  simp only [_create_base_cipher]
  rw [show pop (popOr d "use_aesni" (.pyBool true)).2 "key" = none from
    by simp [pop, hl]]

/-- Witness for the amended C3 statement at the empty dictionary. -/
theorem missing_key_raises_type_error_witness :
    (_create_base_cipher env0 []).outcome = .error (.typeError missingKeyMsg) ∧
    PyErr.errClass (.typeError missingKeyMsg)
        = PyErr.errClass (.typeError byteStringMsg) ∧
    (∀ n, PyErr.errClass (.typeError missingKeyMsg)
        ≠ PyErr.errClass (.valueError (keyLenMsg n))) :=
  missing_key_raises_type_error env0 [] rfl

/-- C4: the `try`/`except OSError` around capability probing and accelerated
loading never lets the exception escape: it always completes, leaves
`_raw_aesni_lib = None` on any probe or load failure, and with no accelerated
library loaded every construction invokes only the portable backend. -/
theorem aesni_load_failure_degrades (probe : Except OSError Bool)
    (load : Except OSError Lib) :
    (∃ v, init_raw_aesni_lib probe load = .ok v) ∧
    (probe.isOk = false → init_raw_aesni_lib probe load = .ok none) ∧
    (load.isOk = false → init_raw_aesni_lib probe load = .ok none) ∧
    (∀ (aes : Lib) (d : Dict) (c : BackendTag × List Nat),
      c ∈ (_create_base_cipher ⟨aes, none⟩ d).startCalls → c.1 = .portable) := by
  refine ⟨?_, ?_, ?_, ?_⟩
  · unfold init_raw_aesni_lib
    cases hb : initAesniBody probe load with
    | ok v => exact ⟨v, rfl⟩
    | error e => exact ⟨none, rfl⟩
  · intro hp
    cases probe with
    | error e => rfl
    | ok b => simp [Except.isOk, Except.toBool] at hp
  · intro hl
    cases load with
    | error e =>
      cases probe with
      | error e2 => rfl
      | ok b => cases b <;> rfl
    | ok v => simp [Except.isOk, Except.toBool] at hl
  · intro aes d c hc
    rw [startCalls_tag ⟨aes, none⟩ d c hc]
    unfold selectLib
    cases ht : (popOr d "use_aesni" (.pyBool true)).1.truthy <;> rfl

/-- Witness for C4: a failing probe leaves the accelerated library unloaded
without raising. -/
theorem aesni_load_failure_degrades_witness :
    init_raw_aesni_lib (.error ⟨"cpuid probe failed"⟩) (.ok libOkNI) = .ok none :=
  (aesni_load_failure_degrades (.error ⟨"cpuid probe failed"⟩) (.ok libOkNI)).2.1 rfl

/-- C6: SIV accepts exactly the key lengths {32, 48, 64} — a set different
from the default {16, 24, 32} — and for every such key the base-cipher key
validation does not reject the material handed to it: both subkeys have
lengths in `key_size` and base-cipher construction on them proceeds to the
backend call instead of failing validation. -/
theorem siv_key_lengths (env : Env) (key : List Nat)
    (h : key.length ∈ siv_key_size) :
    sivKeyAccepted key = true ∧
    siv_key_size ≠ key_size ∧
    (sivSubkeys key).1.length ∈ key_size ∧
    (sivSubkeys key).2.length ∈ key_size ∧
    (_create_base_cipher env [("key", .pyBytes (sivSubkeys key).1)]).startCalls ≠ [] ∧
    (_create_base_cipher env [("key", .pyBytes (sivSubkeys key).2)]).startCalls ≠ [] := by
  have hacc : sivKeyAccepted key = true := by
    unfold sivKeyAccepted
    exact decide_eq_true h
  have hlens : key.length = 32 ∨ key.length = 48 ∨ key.length = 64 := by
    simpa [siv_key_size] using h
  have h1 : (sivSubkeys key).1.length ∈ key_size := by
    simp only [sivSubkeys, List.length_take]
    rcases hlens with hl | hl | hl <;> rw [hl] <;> decide
  have h2 : (sivSubkeys key).2.length ∈ key_size := by
    simp only [sivSubkeys, List.length_drop]
    rcases hlens with hl | hl | hl <;> rw [hl] <;> decide
  have hs1 : (_create_base_cipher env
      [("key", .pyBytes (sivSubkeys key).1)]).startCalls ≠ [] := by
    obtain ⟨hsc, _, _⟩ := create_eval_valid env
      [("key", .pyBytes (sivSubkeys key).1)] (sivSubkeys key).1 rfl h1
    rw [hsc]
    simp
  have hs2 : (_create_base_cipher env
      [("key", .pyBytes (sivSubkeys key).2)]).startCalls ≠ [] := by
    obtain ⟨hsc, _, _⟩ := create_eval_valid env
      [("key", .pyBytes (sivSubkeys key).2)] (sivSubkeys key).2 rfl h2
    rw [hsc]
    simp
  exact ⟨hacc, by decide, h1, h2, hs1, hs2⟩

/-- Witness for C6 at a 64-byte SIV key. -/
theorem siv_key_lengths_witness :
    sivKeyAccepted (List.replicate 64 0) = true ∧
    siv_key_size ≠ key_size ∧
    (sivSubkeys (List.replicate 64 0)).1.length ∈ key_size ∧
    (sivSubkeys (List.replicate 64 0)).2.length ∈ key_size ∧
    (_create_base_cipher env0
      [("key", .pyBytes (sivSubkeys (List.replicate 64 0)).1)]).startCalls ≠ [] ∧
    (_create_base_cipher env0
      [("key", .pyBytes (sivSubkeys (List.replicate 64 0)).2)]).startCalls ≠ [] :=
  siv_key_lengths env0 (List.replicate 64 0) (by decide)

end AESSpec
